import Mathlib

/-!
Shallow embedding of the Nexblue Home Assistant integration's core
(`custom_components/nexblue/api.py` and `coordinator.py`).

Modelling conventions:
* Parsed JSON bodies are values of the inductive `Json`; a Python value that
  may be `None` is an `Option Json` (JSON `null` is `Json.null`; a dict `.get`
  on an absent key yields `none`, and branches on such values go through
  `pyTruthy`, which treats `none` and `Json.null` alike, matching Python's
  identification of JSON null with `None`).
* Numbers are integers (`Int`); the claims exercise no floating point.
* The HTTP world is a script: a list of `HttpResult`s consumed in order, one
  per issued request.  `asyncio.gather` over several requests is embedded as
  sequential execution in the listed order.  An exhausted script behaves as a
  transport failure (`aiohttp.ClientError`), which the code wraps uniformly.
* `datetime.now(timezone.utc)` is embedded as the `now` field of the client
  state, frozen for the duration of one operation; stored expiries are
  integer timestamps in seconds.
* Mutating methods on the Python client object become functions from
  `ClientState` (plus the world script) to an `Outcome`, which carries the
  post state, the remaining script, the trace of issued HTTP requests, and
  either a result or a raised exception.  Exceptions leave the mutations
  performed before the raise in place, as in Python.
-/

/-- Parsed JSON values (Python objects produced by `json.loads`). -/
inductive Json where
  | null : Json
  | bool (b : Bool) : Json
  | num (n : Int) : Json
  | str (s : String) : Json
  | arr (xs : List Json) : Json
  | obj (fields : List (String × Json)) : Json

/-- Dictionary lookup, `d.get(k)` on the field list of a `Json.obj`:
`none` for an absent key.  Keys are assumed distinct, as `json.loads`
produces. -/
def jget : List (String × Json) → String → Option Json
  | [], _ => none
  | (k, v) :: rest, key => if k = key then some v else jget rest key

/-- Attribute-style `.get(k)` on an arbitrary value assumed to be a dict by
the source; a non-dict value yields `none` (such access would raise in
Python and is never exercised by the claims). -/
def jgetJ (v : Json) (k : String) : Option Json :=
  match v with
  | Json.obj fs => jget fs k
  | _ => none

/-- Python truthiness of a possibly-`None` JSON value. -/
def pyTruthy : Option Json → Bool
  | none => false
  | some Json.null => false
  | some (Json.bool b) => b
  | some (Json.num n) => n != 0
  | some (Json.str s) => s != ""
  | some (Json.arr xs) => !xs.isEmpty
  | some (Json.obj fs) => !fs.isEmpty

/-- Python `int(v)` on a JSON value: `none` models a raised
`TypeError`/`ValueError`.  String parsing uses Lean's integer parser, a
faithful-enough stand-in for Python's (the claims never parse exotic
strings). -/
def pyInt : Json → Option Int
  | Json.num n => some n
  | Json.str s => s.trim.toInt?
  | Json.bool b => some (if b then 1 else 0)
  | _ => none

/-- Python `str(v)`/f-string interpolation of a JSON value.  Container
renderings are abbreviated; the source only ever interpolates strings and
numbers on the paths the claims exercise. -/
def pyStr : Json → String
  | Json.str s => s
  | Json.num n => toString n
  | Json.bool b => if b then "True" else "False"
  | Json.null => "None"
  | Json.arr _ => "<list>"
  | Json.obj _ => "<dict>"

/-- Exceptions of the client.  `api`, `auth` and `command` are
`NexblueAPIError` and its two subclasses; `pyExc` stands for a raw Python
exception (`TypeError`, `AttributeError`, ...), which no
`except NexblueAPIError` handler catches. -/
inductive ClientError where
  | api (msg : String) : ClientError
  | auth (msg : String) : ClientError
  | command (result : Option Json) : ClientError
  | pyExc (msg : String) : ClientError

/-- Whether `except NexblueAPIError` catches the exception: true for the
base class and both subclasses, false for raw Python exceptions. -/
def ClientError.isApi : ClientError → Bool
  | ClientError.api _ => true
  | ClientError.auth _ => true
  | ClientError.command _ => true
  | ClientError.pyExc _ => false

/-- Python `str(exception)`: the message the exception was constructed
with (`NexblueCommandError.__init__` formats its result code). -/
def ClientError.message : ClientError → String
  | ClientError.api m => m
  | ClientError.auth m => m
  | ClientError.command r =>
      "Command failed with result code " ++ pyStr ((r).getD Json.null)
  | ClientError.pyExc m => m

/-- One scripted HTTP exchange: either a response with a status code and an
already-parsed body (`none` models an empty body), or a transport-level
`aiohttp.ClientError`. -/
inductive HttpResult where
  | resp (status : Nat) (data : Option Json) : HttpResult
  | netFail (msg : String) : HttpResult

/-- The remaining script of HTTP exchanges. -/
abbrev World := List HttpResult

/-- A request as issued on the wire: method, path, query params, JSON body,
and the `Authorization` header value (the raw stored token) when attached. -/
structure HttpRequest where
  method : String
  path : String
  params : Option Json
  body : Option Json
  auth : Option Json

/-- Mutable state of `NexblueAPI`: the immutable credentials, the token
triple, and the frozen clock. -/
structure ClientState where
  email : String
  password : String
  accountType : Int
  access : Option Json
  refresh : Option Json
  expiry : Option Int
  now : Int

/-- Result of one stateful client operation: post state, remaining script,
trace of issued requests, and the returned value or raised exception. -/
structure Outcome (α : Type) where
  st : ClientState
  w : World
  tr : List HttpRequest
  out : Except ClientError α

/-- Stored expiry computed by `_update_tokens` from a clamped `expires_in`
value `e`: the 5-second floor when `e` is within the 30-second safety
margin, otherwise `now + (e - margin)`. -/
def computeExpiry (now : Int) (e : Int) : Int :=
  if e ≤ 30 then now + 5 else now + (e - 30)

/-- `NexblueAPI._update_tokens`: overwrite the access token, recompute the
expiry, store or keep the refresh token, and only then raise `AuthError` if
the new access token is falsy.  Returns the mutated state together with the
raised exception, mirroring Python's in-place mutation. -/
def updateTokens (st : ClientState) (data : List (String × Json)) (keepRefresh : Bool) :
    ClientState × Except ClientError Unit :=
  match pyInt ((jget data "expires_in").getD (Json.num 3600)) with
  | none =>
      ({ st with access := jget data "access_token" },
       Except.error (ClientError.pyExc "int() on expires_in failed"))
  | some n =>
    let st3 : ClientState :=
      { st with
        access := jget data "access_token",
        expiry := some (computeExpiry st.now (max n 0)),
        refresh :=
          if !keepRefresh then jget data "refresh_token"
          else if pyTruthy (jget data "refresh_token") then jget data "refresh_token"
          else st.refresh }
    if pyTruthy (jget data "access_token") then (st3, Except.ok ())
    else (st3, Except.error (ClientError.auth "Missing access token in response"))

/-- Pop the next scripted exchange; an exhausted script behaves as a
transport failure. -/
def issue (w : World) : HttpResult × World :=
  match w with
  | [] => (HttpResult.netFail "no response", [])
  | r :: rest => (r, rest)

/-- Error message wrapped around a transport failure. -/
def netErrMsg (msg : String) : String :=
  "Error communicating with Nexblue API: " ++ msg

/-- `NexblueAPI._extract_error_message`. -/
def extractErrorMessage (data : Option Json) : String :=
  match data with
  | some (Json.obj fs) =>
      match jget fs "msg" with
      | some v => pyStr v
      | none =>
        match jget fs "message" with
        | some v => pyStr v
        | none =>
          match jget fs "error" with
          | some v => pyStr v
          | none => "Unknown error"
  | some (Json.str s) => s
  | _ => "Unknown error"

/-- Error message for an HTTP status of 400 or above. -/
def httpErrMsg (status : Nat) (data : Option Json) : String :=
  "HTTP " ++ toString status ++ ": " ++ extractErrorMessage data

/-- Response handling of `_request` when `auth_required` is false: the 401
branch is skipped (it is guarded by `auth_required`), so any status of 400
or above raises `NexblueAPIError`. -/
def handleSimple : HttpResult → Except ClientError (Option Json)
  | HttpResult.netFail msg => Except.error (ClientError.api (netErrMsg msg))
  | HttpResult.resp status data =>
      if status ≥ 400 then Except.error (ClientError.api (httpErrMsg status data))
      else Except.ok data

/-- `_request` with `auth_required=False`: no token check, no auth header,
one exchange consumed. -/
def requestNoAuth (st : ClientState) (w : World) (method path : String)
    (params body : Option Json) : Outcome (Option Json) :=
  { st := st
    w := (issue w).2
    tr := [{ method := method, path := path, params := params, body := body, auth := none }]
    out := handleSimple (issue w).1 }

/-- Body of the login request. -/
def loginBody (st : ClientState) : Json :=
  Json.obj
    [("username", Json.str st.email),
     ("password", Json.str st.password),
     ("account_type", Json.num st.accountType)]

/-- Post-processing of the login response: wrap any `NexblueAPIError` into
`AuthError`, reject a non-dict body, otherwise update the tokens. -/
def loginHandle (st : ClientState) :
    Except ClientError (Option Json) → ClientState × Except ClientError Unit
  | Except.error e =>
      (st, Except.error
        (if e.isApi then ClientError.auth "Authentication with Nexblue failed" else e))
  | Except.ok (some (Json.obj fields)) => updateTokens st fields false
  | Except.ok _ => (st, Except.error (ClientError.auth "Invalid response when logging in"))

/-- `NexblueAPI._login`. -/
def login (st : ClientState) (w : World) : Outcome Unit :=
  let q := requestNoAuth st w "POST" "/account/login" none (some (loginBody st))
  let p := loginHandle st q.out
  { st := p.1, w := q.w, tr := q.tr, out := p.2 }

/-- Body of the refresh request. -/
def refreshBody (st : ClientState) : Json :=
  Json.obj
    [("refresh_token", st.refresh.getD Json.null),
     ("account_type", Json.num st.accountType)]

/-- Post-processing of the refresh response; tokens are updated with
`keep_refresh=True`. -/
def refreshHandle (st : ClientState) :
    Except ClientError (Option Json) → ClientState × Except ClientError Unit
  | Except.error e =>
      (st, Except.error
        (if e.isApi then ClientError.auth "Refreshing Nexblue token failed" else e))
  | Except.ok (some (Json.obj fields)) => updateTokens st fields true
  | Except.ok _ => (st, Except.error (ClientError.auth "Invalid response when refreshing token"))

/-- `NexblueAPI._refresh_access_token`. -/
def refreshAccessToken (st : ClientState) (w : World) : Outcome Unit :=
  if pyTruthy st.refresh then
    let q := requestNoAuth st w "POST" "/account/refresh_token" none (some (refreshBody st))
    let p := refreshHandle st q.out
    { st := p.1, w := q.w, tr := q.tr, out := p.2 }
  else { st := st, w := w, tr := [], out := Except.error (ClientError.auth "Missing refresh token") }

/-- The guard of `_ensure_access_token`: a truthy access token, a set
expiry, and `now` strictly before it. -/
def tokenFresh (st : ClientState) : Bool :=
  pyTruthy st.access &&
    (match st.expiry with
     | some e => decide (st.now < e)
     | none => false)

/-- `NexblueAPI._ensure_access_token`: a no-op while the token is fresh;
otherwise refresh when a refresh token is held, falling back to login when
the refresh raises a `NexblueAPIError`, and login directly otherwise. -/
def ensureAccessToken (st : ClientState) (w : World) : Outcome Unit :=
  if tokenFresh st then { st := st, w := w, tr := [], out := Except.ok () }
  else if pyTruthy st.refresh then
    let r := refreshAccessToken st w
    match r.out with
    | Except.ok _ => r
    | Except.error e =>
        if e.isApi then
          let l := login r.st r.w
          { st := l.st, w := l.w, tr := r.tr ++ l.tr, out := l.out }
        else r
  else login st w

/-- `NexblueAPI._handle_unauthorized`: drop the access token and expiry,
then refresh when a refresh token is held, else login; a failure here
propagates (no fallback chain). -/
def handleUnauthorized (st : ClientState) (w : World) : Outcome Unit :=
  let st1 := { st with access := none, expiry := none }
  if pyTruthy st1.refresh then refreshAccessToken st1 w else login st1 w

/-- The `Authorization` header attached when auth is required: the raw
stored token whenever it is truthy. -/
def authHeader (st : ClientState) : Option Json :=
  if pyTruthy st.access then st.access else none

/-- `_request` with `auth_required=True, retry=False`: ensure a token,
issue once, and raise `AuthError "Unauthorized"` on a 401 without any
further retry. -/
def requestAuthOnce (st : ClientState) (w : World) (method path : String)
    (params body : Option Json) : Outcome (Option Json) :=
  let e := ensureAccessToken st w
  match e.out with
  | Except.error err => { st := e.st, w := e.w, tr := e.tr, out := Except.error err }
  | Except.ok _ =>
    let req : HttpRequest :=
      { method := method, path := path, params := params, body := body, auth := authHeader e.st }
    let r := issue e.w
    match r.1 with
    | HttpResult.netFail msg =>
        { st := e.st, w := r.2, tr := e.tr ++ [req],
          out := Except.error (ClientError.api (netErrMsg msg)) }
    | HttpResult.resp status data =>
        if status = 401 then
          { st := e.st, w := r.2, tr := e.tr ++ [req],
            out := Except.error (ClientError.auth "Unauthorized") }
        else if status ≥ 400 then
          { st := e.st, w := r.2, tr := e.tr ++ [req],
            out := Except.error (ClientError.api (httpErrMsg status data)) }
        else { st := e.st, w := r.2, tr := e.tr ++ [req], out := Except.ok data }

/-- `_request` with `auth_required=True, retry=True`: on a 401, invalidate
the token via `_handle_unauthorized` and reissue the identical request
exactly once with `retry=False`. -/
def requestAuthRetry (st : ClientState) (w : World) (method path : String)
    (params body : Option Json) : Outcome (Option Json) :=
  let e := ensureAccessToken st w
  match e.out with
  | Except.error err => { st := e.st, w := e.w, tr := e.tr, out := Except.error err }
  | Except.ok _ =>
    let req : HttpRequest :=
      { method := method, path := path, params := params, body := body, auth := authHeader e.st }
    let r := issue e.w
    match r.1 with
    | HttpResult.netFail msg =>
        { st := e.st, w := r.2, tr := e.tr ++ [req],
          out := Except.error (ClientError.api (netErrMsg msg)) }
    | HttpResult.resp status data =>
        if status = 401 then
          let h := handleUnauthorized e.st r.2
          match h.out with
          | Except.error err =>
              { st := h.st, w := h.w, tr := e.tr ++ [req] ++ h.tr, out := Except.error err }
          | Except.ok _ =>
              let q := requestAuthOnce h.st h.w method path params body
              { st := q.st, w := q.w, tr := e.tr ++ [req] ++ h.tr ++ q.tr, out := q.out }
        else if status ≥ 400 then
          { st := e.st, w := r.2, tr := e.tr ++ [req],
            out := Except.error (ClientError.api (httpErrMsg status data)) }
        else { st := e.st, w := r.2, tr := e.tr ++ [req], out := Except.ok data }

/-- `NexblueAPI._request` with its Python signature; external callers use
the defaults `auth_required=True, retry=True`. -/
def request (st : ClientState) (w : World) (method path : String)
    (params body : Option Json) (authRequired retry : Bool) : Outcome (Option Json) :=
  if authRequired then
    if retry then requestAuthRetry st w method path params body
    else requestAuthOnce st w method path params body
  else requestNoAuth st w method path params body

/-- `NexblueChargerData`: the four fragments of a device record. -/
structure ChargerData where
  relation : Json
  detail : Json
  status : Json
  schedule : Option Json

/-- `NexblueChargerData.circuit_fuse`: the integer fuse rating from the
detail fragment's `circuit_data` dict, `none` when the dict or the value is
absent, null, or fails `int()`. -/
def circuit_fuse (d : ChargerData) : Option Int :=
  match jgetJ d.detail "circuit_data" with
  | some (Json.obj circuit) =>
      match jget circuit "fuse" with
      | none => none
      | some Json.null => none
      | some v => pyInt v
  | _ => none

/-- `NexblueChargerData.max_configurable_current`. -/
def max_configurable_current (d : ChargerData) : Int :=
  let fuse := circuit_fuse d
  let maxLimit := match fuse with | none => (32 : Int) | some f => min 32 f
  max 6 maxLimit

/-- The result code extracted from a command response:
`response.get("result") if isinstance(response, dict) else None`. -/
def commandResult (response : Option Json) : Option Json :=
  match response with
  | some (Json.obj fields) => jget fields "result"
  | _ => none

/-- Python `result not in (None, 0)`: true exactly when the value is
present and equal (under Python `==`) to neither `None` nor `0`; note that
`False == 0` holds in Python, so a `false` result is success, while any
string, list or dict value counts as failure. -/
def resultFailure : Option Json → Bool
  | none => false
  | some Json.null => false
  | some (Json.num n) => n != 0
  | some (Json.bool b) => b
  | some _ => true

/-- The shared tail of the four command methods: raise `CommandError` with
the result code exactly when `result not in (None, 0)`. -/
def commandCheck (response : Option Json) : Except ClientError Unit :=
  if resultFailure (commandResult response) then
    Except.error (ClientError.command (commandResult response))
  else Except.ok ()

/-- `NexblueAPI.start_charging`. -/
def startCharging (st : ClientState) (w : World) (chargerId : String) : Outcome Unit :=
  let q := request st w "POST" ("/chargers/" ++ chargerId ++ "/cmd/start_charging")
    none none true true
  { st := q.st, w := q.w, tr := q.tr,
    out := match q.out with
           | Except.error e => Except.error e
           | Except.ok resp => commandCheck resp }

/-- `NexblueAPI.stop_charging`. -/
def stopCharging (st : ClientState) (w : World) (chargerId : String) : Outcome Unit :=
  let q := request st w "POST" ("/chargers/" ++ chargerId ++ "/cmd/stop_charging")
    none none true true
  { st := q.st, w := q.w, tr := q.tr,
    out := match q.out with
           | Except.error e => Except.error e
           | Except.ok resp => commandCheck resp }

/-- `NexblueAPI.set_current_limit`: POST with an integer payload. -/
def setCurrentLimit (st : ClientState) (w : World) (chargerId : String)
    (currentLimit : Int) : Outcome Unit :=
  let q := request st w "POST" ("/chargers/" ++ chargerId ++ "/cmd/set_current_limit")
    none (some (Json.obj [("current_limit", Json.num currentLimit)])) true true
  { st := q.st, w := q.w, tr := q.tr,
    out := match q.out with
           | Except.error e => Except.error e
           | Except.ok resp => commandCheck resp }

/-- `NexblueAPI.set_schedule_mode`: PUT with an integer payload. -/
def setScheduleMode (st : ClientState) (w : World) (chargerId : String)
    (scheduleMode : Int) : Outcome Unit :=
  let q := request st w "PUT" ("/chargers/" ++ chargerId ++ "/cmd/schedule/config")
    none (some (Json.obj [("schedule_mode", Json.num scheduleMode)])) true true
  { st := q.st, w := q.w, tr := q.tr,
    out := match q.out with
           | Except.error e => Except.error e
           | Except.ok resp => commandCheck resp }

/-- Python `value or {}` on a fetched fragment. -/
def pyOrEmpty (v : Option Json) : Json :=
  if pyTruthy v then v.getD (Json.obj []) else Json.obj []

/-- `get_chargers._fetch_single` for one relation record: skip a relation
without a truthy serial number; otherwise fetch the three fragments
(embedded sequentially in the listed order of the inner
`asyncio.gather(..., return_exceptions=True)`), degrading every captured
exception to an empty fragment.  The returned key is the raw serial
value. -/
def fetchSingle (st : ClientState) (w : World) (relation : Json) :
    Outcome (Option (Json × ChargerData)) :=
  match relation with
  | Json.obj rf =>
    let cid := jget rf "serial_number"
    if pyTruthy cid then
      let cids := pyStr (cid.getD Json.null)
      let q1 := request st w "GET" ("/chargers/" ++ cids) none none true true
      let q2 := request q1.st q1.w "GET" ("/chargers/" ++ cids ++ "/cmd/status")
        none none true true
      let q3 := request q2.st q2.w "GET" ("/chargers/" ++ cids ++ "/cmd/schedule")
        none none true true
      let detail := match q1.out with
        | Except.error _ => Json.obj []
        | Except.ok v => pyOrEmpty v
      let status := match q2.out with
        | Except.error _ => Json.obj []
        | Except.ok v => pyOrEmpty v
      let schedule := match q3.out with
        | Except.error _ => none
        | Except.ok v => some (pyOrEmpty v)
      { st := q3.st, w := q3.w, tr := q1.tr ++ q2.tr ++ q3.tr,
        out := Except.ok (some (cid.getD Json.null,
          { relation := relation, detail := detail, status := status, schedule := schedule })) }
    else { st := st, w := w, tr := [], out := Except.ok none }
  | _ => { st := st, w := w, tr := [],
           out := Except.error (ClientError.pyExc "AttributeError: get on non-dict relation") }

/-- The snapshot type: device key mapped to its record, in fetch order
(keys are distinct on the inputs the claims exercise, so an association
list models the Python dict). -/
abbrev Snapshot := List (Json × ChargerData)

/-- The outer `asyncio.gather` over `_fetch_single`, embedded sequentially;
a raw exception from one fetch aborts the cycle (the outer gather has no
`return_exceptions`), and skipped relations produce no entry. -/
def fetchAll (st : ClientState) (w : World) : List Json → Outcome Snapshot
  | [] => { st := st, w := w, tr := [], out := Except.ok [] }
  | rel :: rest =>
    let q := fetchSingle st w rel
    match q.out with
    | Except.error e => { st := q.st, w := q.w, tr := q.tr, out := Except.error e }
    | Except.ok none =>
        let r := fetchAll q.st q.w rest
        { st := r.st, w := r.w, tr := q.tr ++ r.tr, out := r.out }
    | Except.ok (some kv) =>
        let r := fetchAll q.st q.w rest
        { st := r.st, w := r.w, tr := q.tr ++ r.tr,
          out := match r.out with
                 | Except.error e => Except.error e
                 | Except.ok acc => Except.ok (kv :: acc) }

/-- `relations.get("data", []) if relations else []` followed by the
`if not relation_items` emptiness test: the list of relation records, or a
raw Python error when the value is not iterable (never exercised by the
claims). -/
def relationItems (relations : Option Json) : Except ClientError (List Json) :=
  if !pyTruthy relations then Except.ok []
  else match relations with
    | some (Json.obj fs) =>
        let ri := (jget fs "data").getD (Json.arr [])
        if !pyTruthy (some ri) then Except.ok []
        else match ri with
          | Json.arr xs => Except.ok xs
          | _ => Except.error (ClientError.pyExc "relation_items is not iterable")
    | _ => Except.error (ClientError.pyExc "AttributeError: get on non-dict relations")

/-- `NexblueAPI.get_chargers`: list the devices, then fetch a per-device
snapshot for every listed relation. -/
def getChargers (st : ClientState) (w : World) : Outcome Snapshot :=
  let q := request st w "GET" "/chargers" none none true true
  match q.out with
  | Except.error e => { st := q.st, w := q.w, tr := q.tr, out := Except.error e }
  | Except.ok relations =>
    match relationItems relations with
    | Except.error e => { st := q.st, w := q.w, tr := q.tr, out := Except.error e }
    | Except.ok items =>
        let r := fetchAll q.st q.w items
        { st := r.st, w := r.w, tr := q.tr ++ r.tr, out := r.out }

/-- Outcome of one coordinator poll tick. -/
inductive CoordResult where
  | success (snapshot : Snapshot) : CoordResult
  | updateFailed (reason : String) : CoordResult
  | raised (e : ClientError) : CoordResult

/-- `NexblueDataUpdateCoordinator._async_update_data`: publish the fetched
snapshot, or convert any `NexblueAPIError` into `UpdateFailed` with a
reason wrapping the original message; a raw Python exception would
escape. -/
def asyncUpdateData (st : ClientState) (w : World) : ClientState × World × CoordResult :=
  let g := getChargers st w
  (g.st, g.w,
    match g.out with
    | Except.ok snap => CoordResult.success snap
    | Except.error e =>
        if e.isApi then
          CoordResult.updateFailed ("Error fetching Nexblue data: " ++ e.message)
        else CoordResult.raised e)

/-- A client state holding a fresh token with no refresh token: the
credentials, an access token valid until timestamp 100, clock at 0. -/
def st0 : ClientState :=
  { email := "user@example.com", password := "pw", accountType := 1,
    access := some (Json.str "TOK0"), refresh := none, expiry := some 100, now := 0 }

/-- `st0` additionally holding a refresh token. -/
def st0r : ClientState := { st0 with refresh := some (Json.str "R0") }

/-- A client state whose token expired (clock past the stored expiry). -/
def stStale : ClientState :=
  { email := "user@example.com", password := "pw", accountType := 1,
    access := some (Json.str "OLD"), refresh := none, expiry := some 10, now := 50 }

/-- A client state before any authentication. -/
def stNoTok : ClientState :=
  { email := "user@example.com", password := "pw", accountType := 1,
    access := none, refresh := none, expiry := none, now := 0 }

/-- A token-endpoint response body carrying an access token and a one-hour
`expires_in`. -/
def tokResp (t : String) : Option Json :=
  some (Json.obj [("access_token", Json.str t), ("expires_in", Json.num 3600)])

/-- Relation record of device A. -/
def relA : Json := Json.obj [("serial_number", Json.str "A")]

/-- Relation record of device B. -/
def relB : Json := Json.obj [("serial_number", Json.str "B")]

/-- A relation record lacking a serial number. -/
def relNoId : Json := Json.obj [("name", Json.str "unnamed")]

/-- Device-list response listing A and B. -/
def listRespAB : Option Json := some (Json.obj [("data", Json.arr [relA, relB])])

/-- Device-list response listing A and a relation without a serial. -/
def listRespASkip : Option Json := some (Json.obj [("data", Json.arr [relA, relNoId])])

/-- Whether a possibly-absent result value is an integer. -/
def isIntResult : Option Json → Bool
  | some (Json.num _) => true
  | _ => false

/-- Whether `int()` succeeds on the response's `expires_in` (with the 3600
default for an absent key). -/
def expiresParses (fields : List (String × Json)) : Bool :=
  (pyInt ((jget fields "expires_in").getD (Json.num 3600))).isSome

/-- A detail fragment whose circuit data carries a fuse rating of 20. -/
def detailFuse20 : Json :=
  Json.obj [("circuit_data", Json.obj [("fuse", Json.num 20)])]

/-- A charger record built from `detailFuse20`. -/
def chargerFuse20 : ChargerData :=
  { relation := Json.obj [], detail := detailFuse20, status := Json.obj [], schedule := none }

/-- A charger record with no circuit data at all. -/
def chargerNoFuse : ChargerData :=
  { relation := Json.obj [], detail := Json.obj [], status := Json.obj [], schedule := none }

/-- Projection of the state produced by a token update whose `expires_in`
parses: all three token fields written as the source writes them. -/
theorem updateTokens_fst (st : ClientState) (data : List (String × Json)) (kr : Bool)
    (n : Int) (h : pyInt ((jget data "expires_in").getD (Json.num 3600)) = some n) :
    (updateTokens st data kr).1 =
      { st with
        access := jget data "access_token",
        expiry := some (computeExpiry st.now (max n 0)),
        refresh :=
          if !kr then jget data "refresh_token"
          else if pyTruthy (jget data "refresh_token") then jget data "refresh_token"
          else st.refresh } := by
  simp only [updateTokens, h]
  split <;> rfl

/-- Projection of the result of a token update whose `expires_in` parses:
success exactly when the response's access token is truthy. -/
theorem updateTokens_snd (st : ClientState) (data : List (String × Json)) (kr : Bool)
    (n : Int) (h : pyInt ((jget data "expires_in").getD (Json.num 3600)) = some n) :
    (updateTokens st data kr).2 =
      (if pyTruthy (jget data "access_token") then Except.ok ()
       else Except.error (ClientError.auth "Missing access token in response")) := by
  simp only [updateTokens, h]
  split <;> simp_all

/-- C6: `max_configurable_current` equals `max 6 (min 32 fuse)` whenever a
fuse rating is present in the circuit data, and 32 whenever the fuse rating
is absent or fails integer conversion (in which case `circuit_fuse` is
`none`). -/
theorem c6_max_configurable_current (d : ChargerData) (f : Int) :
    (circuit_fuse d = some f → max_configurable_current d = max 6 (min 32 f))
    ∧ (circuit_fuse d = none → max_configurable_current d = 32) := by
  constructor <;> intro h <;> simp [max_configurable_current, h]

/-- Witness for C6 at a fuse rating of 20 and at an absent fuse rating. -/
theorem c6_max_configurable_current_witness :
    circuit_fuse chargerFuse20 = some 20 ∧ max_configurable_current chargerFuse20 = 20
    ∧ circuit_fuse chargerNoFuse = none ∧ max_configurable_current chargerNoFuse = 32 := by
  refine ⟨rfl, ?_, rfl, ?_⟩
  · rw [(c6_max_configurable_current chargerFuse20 20).1 rfl]
    decide
  · exact (c6_max_configurable_current chargerNoFuse 0).2 rfl

/-- C4: after a token update whose response carries `expires_in = E`, the
stored expiry is `now + (E - 30)` when `E` exceeds the 30-second margin and
`now + 5` otherwise; the login example `{access_token: T1, expires_in: 3600}`
yields expiry `now + 3570` and no stored refresh token. -/
theorem c4_token_expiry (st : ClientState) (data : List (String × Json)) (kr : Bool)
    (E : Int) (h : jget data "expires_in" = some (Json.num E)) :
    (30 < E → ((updateTokens st data kr).1).expiry = some (st.now + (E - 30)))
    ∧ (E ≤ 30 → ((updateTokens st data kr).1).expiry = some (st.now + 5))
    ∧ ((login stNoTok [HttpResult.resp 200 (tokResp "T1")]).st.expiry = some (stNoTok.now + 3570)
        ∧ (login stNoTok [HttpResult.resp 200 (tokResp "T1")]).st.refresh = none
        ∧ (login stNoTok [HttpResult.resp 200 (tokResp "T1")]).out = Except.ok ()) := by
  have hp : pyInt ((jget data "expires_in").getD (Json.num 3600)) = some E := by
    rw [h]; rfl
  refine ⟨?_, ?_, rfl, rfl, rfl⟩
  · intro hE
    rw [updateTokens_fst st data kr E hp]
    have hmax : max E 0 = E := max_eq_left (by omega)
    have hn : ¬ E ≤ 30 := by omega
    simp [computeExpiry, hmax, hn]
  · intro hE
    rw [updateTokens_fst st data kr E hp]
    have h0 : max E 0 ≤ 30 := by omega
    simp [computeExpiry, h0]

/-- Witness for C4 at `expires_in = 3600` (expiry `now + 3570`) and
`expires_in = 10` (the 5-second floor). -/
theorem c4_token_expiry_witness :
    ((updateTokens stNoTok [("access_token", Json.str "T1"), ("expires_in", Json.num 3600)] false).1).expiry
        = some 3570
    ∧ ((updateTokens stNoTok [("access_token", Json.str "T1"), ("expires_in", Json.num 10)] false).1).expiry
        = some 5 := by
  constructor
  · have h := (c4_token_expiry stNoTok
      [("access_token", Json.str "T1"), ("expires_in", Json.num 3600)] false 3600 rfl).1
      (by decide)
    simpa [stNoTok] using h
  · have h := (c4_token_expiry stNoTok
      [("access_token", Json.str "T1"), ("expires_in", Json.num 10)] false 10 rfl).2.1
      (by decide)
    simpa [stNoTok] using h

/-- C2: an authenticated request that receives a 401 is retried exactly
once.  Three scenarios over an arbitrary request (method, path, params,
body): (1) no refresh token held — the client re-authenticates by login and
reissues the identical request once, and a second 401 raises
`AuthError "Unauthorized"` with exactly three exchanges consumed (no
further retry); (2) the same with a refresh token held — re-authentication
goes through the refresh endpoint; (3) when the re-authentication itself
fails, the final state shows the access token and expiry were invalidated
before re-authenticating. -/
theorem c2_retry_once (m p : String) (pr b b1 b2 : Option Json) (rest : World) :
    requestAuthRetry st0
        (HttpResult.resp 401 b1 :: HttpResult.resp 200 (tokResp "TOK1")
          :: HttpResult.resp 401 b2 :: rest) m p pr b
      = { st := { email := "user@example.com", password := "pw", accountType := 1,
                  access := some (Json.str "TOK1"), refresh := none,
                  expiry := some 3570, now := 0 },
          w := rest,
          tr := [{ method := m, path := p, params := pr, body := b,
                   auth := some (Json.str "TOK0") },
                 { method := "POST", path := "/account/login", params := none,
                   body := some (Json.obj
                     [("username", Json.str "user@example.com"),
                      ("password", Json.str "pw"),
                      ("account_type", Json.num 1)]),
                   auth := none },
                 { method := m, path := p, params := pr, body := b,
                   auth := some (Json.str "TOK1") }],
          out := Except.error (ClientError.auth "Unauthorized") }
    ∧ requestAuthRetry st0r
        (HttpResult.resp 401 b1 :: HttpResult.resp 200 (tokResp "TOK2")
          :: HttpResult.resp 401 b2 :: rest) m p pr b
      = { st := { email := "user@example.com", password := "pw", accountType := 1,
                  access := some (Json.str "TOK2"), refresh := some (Json.str "R0"),
                  expiry := some 3570, now := 0 },
          w := rest,
          tr := [{ method := m, path := p, params := pr, body := b,
                   auth := some (Json.str "TOK0") },
                 { method := "POST", path := "/account/refresh_token", params := none,
                   body := some (Json.obj
                     [("refresh_token", Json.str "R0"),
                      ("account_type", Json.num 1)]),
                   auth := none },
                 { method := m, path := p, params := pr, body := b,
                   auth := some (Json.str "TOK2") }],
          out := Except.error (ClientError.auth "Unauthorized") }
    ∧ requestAuthRetry st0
        (HttpResult.resp 401 b1 :: HttpResult.netFail "boom" :: rest) m p pr b
      = { st := stNoTok,
          w := rest,
          tr := [{ method := m, path := p, params := pr, body := b,
                   auth := some (Json.str "TOK0") },
                 { method := "POST", path := "/account/login", params := none,
                   body := some (Json.obj
                     [("username", Json.str "user@example.com"),
                      ("password", Json.str "pw"),
                      ("account_type", Json.num 1)]),
                   auth := none }],
          out := Except.error (ClientError.auth "Authentication with Nexblue failed") } :=
  ⟨rfl, rfl, rfl⟩

/-- C1 counterexample: a network transport failure of B's status fetch does
NOT propagate out of the per-device fetch.  The inner
`asyncio.gather(..., return_exceptions=True)` captures the wrapped
`NexblueAPIError` like any other exception, so the fetch returns B's record
with an empty status fragment, the whole script consumed and no exception
raised — contradicting the claim that a total client failure during a
fragment fetch propagates. -/
theorem c1_counterexample :
    (fetchSingle st0
        [HttpResult.resp 200 (some (Json.obj [("online", Json.bool true)])),
         HttpResult.netFail "connection reset",
         HttpResult.resp 200 (some (Json.obj [("schedule_mode", Json.num 1)]))]
        relB).out
      = Except.ok (some (Json.str "B",
          { relation := relB,
            detail := Json.obj [("online", Json.bool true)],
            status := Json.obj [],
            schedule := some (Json.obj [("schedule_mode", Json.num 1)]) }))
    ∧ (fetchSingle st0
        [HttpResult.resp 200 (some (Json.obj [("online", Json.bool true)])),
         HttpResult.netFail "connection reset",
         HttpResult.resp 200 (some (Json.obj [("schedule_mode", Json.num 1)]))]
        relB).w = [] :=
  ⟨rfl, rfl⟩

/-- An authenticated request against a fresh token and a 200 response is a
single exchange returning the response body, leaving the state unchanged. -/
theorem requestRetry_200 (st : ClientState) (m p : String) (pr b d : Option Json)
    (rest : World) (h : tokenFresh st = true) :
    requestAuthRetry st (HttpResult.resp 200 d :: rest) m p pr b
      = { st := st, w := rest,
          tr := [{ method := m, path := p, params := pr, body := b, auth := authHeader st }],
          out := Except.ok d } := by
  simp [requestAuthRetry, ensureAccessToken, h, issue]

/-- An authenticated request against a fresh token and a transport failure
is a single exchange raising the wrapped `APIError`. -/
theorem requestRetry_netFail (st : ClientState) (m p : String) (pr b : Option Json)
    (msg : String) (rest : World) (h : tokenFresh st = true) :
    requestAuthRetry st (HttpResult.netFail msg :: rest) m p pr b
      = { st := st, w := rest,
          tr := [{ method := m, path := p, params := pr, body := b, auth := authHeader st }],
          out := Except.error (ClientError.api (netErrMsg msg)) } := by
  simp [requestAuthRetry, ensureAccessToken, h, issue]

/-- An authenticated request against a fresh token and a 500 response is a
single exchange raising `APIError` with the extracted message. -/
theorem requestRetry_500 (st : ClientState) (m p : String) (pr b d : Option Json)
    (rest : World) (h : tokenFresh st = true) :
    requestAuthRetry st (HttpResult.resp 500 d :: rest) m p pr b
      = { st := st, w := rest,
          tr := [{ method := m, path := p, params := pr, body := b, auth := authHeader st }],
          out := Except.error (ClientError.api (httpErrMsg 500 d)) } := by
  simp [requestAuthRetry, ensureAccessToken, h, issue]

/-- Per-device fetch of A when all three fragment requests succeed. -/
theorem fetchSingle_relA (st : ClientState) (d s c : Option Json) (rest : World)
    (h : tokenFresh st = true) :
    fetchSingle st
        (HttpResult.resp 200 d :: HttpResult.resp 200 s :: HttpResult.resp 200 c :: rest)
        relA
      = { st := st, w := rest,
          tr := [{ method := "GET", path := "/chargers/A", params := none, body := none,
                   auth := authHeader st },
                 { method := "GET", path := "/chargers/A/cmd/status", params := none,
                   body := none, auth := authHeader st },
                 { method := "GET", path := "/chargers/A/cmd/schedule", params := none,
                   body := none, auth := authHeader st }],
          out := Except.ok (some (Json.str "A",
            { relation := relA, detail := pyOrEmpty d, status := pyOrEmpty s,
              schedule := some (pyOrEmpty c) })) } := by
  simp [fetchSingle, relA, request, requestRetry_200, h, jget, pyTruthy, pyStr]

/-- Per-device fetch of B when the status request fails with a transport
error: the failure is captured and degraded to an empty status fragment. -/
theorem fetchSingle_relB_statusNetFail (st : ClientState) (d c : Option Json)
    (msg : String) (rest : World) (h : tokenFresh st = true) :
    fetchSingle st
        (HttpResult.resp 200 d :: HttpResult.netFail msg :: HttpResult.resp 200 c :: rest)
        relB
      = { st := st, w := rest,
          tr := [{ method := "GET", path := "/chargers/B", params := none, body := none,
                   auth := authHeader st },
                 { method := "GET", path := "/chargers/B/cmd/status", params := none,
                   body := none, auth := authHeader st },
                 { method := "GET", path := "/chargers/B/cmd/schedule", params := none,
                   body := none, auth := authHeader st }],
          out := Except.ok (some (Json.str "B",
            { relation := relB, detail := pyOrEmpty d, status := Json.obj [],
              schedule := some (pyOrEmpty c) })) } := by
  simp [fetchSingle, relB, request, requestRetry_200, requestRetry_netFail, h,
    jget, pyTruthy, pyStr]

/-- Per-device fetch of B when the status request fails with an HTTP 500:
the raised `APIError` is captured and degraded to an empty status
fragment. -/
theorem fetchSingle_relB_status500 (st : ClientState) (d e c : Option Json)
    (rest : World) (h : tokenFresh st = true) :
    fetchSingle st
        (HttpResult.resp 200 d :: HttpResult.resp 500 e :: HttpResult.resp 200 c :: rest)
        relB
      = { st := st, w := rest,
          tr := [{ method := "GET", path := "/chargers/B", params := none, body := none,
                   auth := authHeader st },
                 { method := "GET", path := "/chargers/B/cmd/status", params := none,
                   body := none, auth := authHeader st },
                 { method := "GET", path := "/chargers/B/cmd/schedule", params := none,
                   body := none, auth := authHeader st }],
          out := Except.ok (some (Json.str "B",
            { relation := relB, detail := pyOrEmpty d, status := Json.obj [],
              schedule := some (pyOrEmpty c) })) } := by
  simp [fetchSingle, relB, request, requestRetry_200, requestRetry_500, h,
    jget, pyTruthy, pyStr]

/-- Per-device fetch of a relation without a serial number: skipped with no
request issued. -/
theorem fetchSingle_relNoId (st : ClientState) (w : World) :
    fetchSingle st w relNoId = { st := st, w := w, tr := [], out := Except.ok none } := by
  simp [fetchSingle, relNoId, jget, pyTruthy]

/-- C1 (amended): fragment failures of every kind are isolated — a failed
fragment (here B's status), whether it fails with a network transport error
or with an HTTP error status, is degraded to an empty fragment, B's record
is still produced alongside a fully populated A, and no exception escapes
`get_all_devices`. -/
theorem c1_fragment_isolation (dA sA cA dB cB errB : Option Json) (msg : String)
    (rest : World) :
    getChargers st0
        (HttpResult.resp 200 listRespAB :: HttpResult.resp 200 dA
          :: HttpResult.resp 200 sA :: HttpResult.resp 200 cA
          :: HttpResult.resp 200 dB :: HttpResult.netFail msg
          :: HttpResult.resp 200 cB :: rest)
      = { st := st0, w := rest,
          tr := [{ method := "GET", path := "/chargers", params := none, body := none,
                   auth := some (Json.str "TOK0") },
                 { method := "GET", path := "/chargers/A", params := none, body := none,
                   auth := some (Json.str "TOK0") },
                 { method := "GET", path := "/chargers/A/cmd/status", params := none,
                   body := none, auth := some (Json.str "TOK0") },
                 { method := "GET", path := "/chargers/A/cmd/schedule", params := none,
                   body := none, auth := some (Json.str "TOK0") },
                 { method := "GET", path := "/chargers/B", params := none, body := none,
                   auth := some (Json.str "TOK0") },
                 { method := "GET", path := "/chargers/B/cmd/status", params := none,
                   body := none, auth := some (Json.str "TOK0") },
                 { method := "GET", path := "/chargers/B/cmd/schedule", params := none,
                   body := none, auth := some (Json.str "TOK0") }],
          out := Except.ok
            [(Json.str "A",
              { relation := relA, detail := pyOrEmpty dA, status := pyOrEmpty sA,
                schedule := some (pyOrEmpty cA) }),
             (Json.str "B",
              { relation := relB, detail := pyOrEmpty dB, status := Json.obj [],
                schedule := some (pyOrEmpty cB) })] }
    ∧ (getChargers st0
          (HttpResult.resp 200 listRespAB :: HttpResult.resp 200 dA
            :: HttpResult.resp 200 sA :: HttpResult.resp 200 cA
            :: HttpResult.resp 200 dB :: HttpResult.resp 500 errB
            :: HttpResult.resp 200 cB :: rest)).out
      = Except.ok
          [(Json.str "A",
            { relation := relA, detail := pyOrEmpty dA, status := pyOrEmpty sA,
              schedule := some (pyOrEmpty cA) }),
           (Json.str "B",
            { relation := relB, detail := pyOrEmpty dB, status := Json.obj [],
              schedule := some (pyOrEmpty cB) })] := by
  have h : tokenFresh st0 = true := rfl
  have ha : authHeader st0 = some (Json.str "TOK0") := rfl
  constructor
  · simp [getChargers, request, requestRetry_200, h, ha, listRespAB, relationItems,
      jget, pyTruthy, fetchAll, fetchSingle_relA, fetchSingle_relB_statusNetFail]
  · simp [getChargers, request, requestRetry_200, h, ha, listRespAB, relationItems,
      jget, pyTruthy, fetchAll, fetchSingle_relA, fetchSingle_relB_status500]

/-- C7: `get_all_devices` first issues the device-list request, then per
listed device its three fragment requests; a listed relation without a
serial number is skipped (no fragment request issued for it) and absent
from the snapshot; an empty device list yields an empty snapshot with no
further request, not an error. -/
theorem c7_get_all_devices (dA sA cA : Option Json) (rest : World) :
    getChargers st0
        (HttpResult.resp 200 (some (Json.obj [("data", Json.arr [])])) :: rest)
      = { st := st0, w := rest,
          tr := [{ method := "GET", path := "/chargers", params := none, body := none,
                   auth := some (Json.str "TOK0") }],
          out := Except.ok [] }
    ∧ getChargers st0
        (HttpResult.resp 200 listRespASkip :: HttpResult.resp 200 dA
          :: HttpResult.resp 200 sA :: HttpResult.resp 200 cA :: rest)
      = { st := st0, w := rest,
          tr := [{ method := "GET", path := "/chargers", params := none, body := none,
                   auth := some (Json.str "TOK0") },
                 { method := "GET", path := "/chargers/A", params := none, body := none,
                   auth := some (Json.str "TOK0") },
                 { method := "GET", path := "/chargers/A/cmd/status", params := none,
                   body := none, auth := some (Json.str "TOK0") },
                 { method := "GET", path := "/chargers/A/cmd/schedule", params := none,
                   body := none, auth := some (Json.str "TOK0") }],
          out := Except.ok
            [(Json.str "A",
              { relation := relA, detail := pyOrEmpty dA, status := pyOrEmpty sA,
                schedule := some (pyOrEmpty cA) })] } := by
  have h : tokenFresh st0 = true := rfl
  have ha : authHeader st0 = some (Json.str "TOK0") := rfl
  constructor
  · simp [getChargers, request, requestRetry_200, h, ha, relationItems, jget, pyTruthy,
      fetchAll]
  · simp [getChargers, request, requestRetry_200, h, ha, listRespASkip, relationItems,
      jget, pyTruthy, fetchAll, fetchSingle_relA, fetchSingle_relNoId]

/-- C5 counterexample: a command response whose result field holds the
string "x" — not an integer at all — still raises `CommandError` (carrying
that non-integer value), contradicting the claim that `CommandError` is
raised only for non-zero, non-absent integer result codes. -/
theorem c5_counterexample :
    (startCharging st0 [HttpResult.resp 200 (some (Json.obj [("result", Json.str "x")]))]
        "A").out
      = Except.error (ClientError.command (some (Json.str "x")))
    ∧ isIntResult (some (Json.str "x")) = false :=
  ⟨rfl, rfl⟩

/-- C5 (amended): each of the four mutating commands raises `CommandError`
carrying the result value exactly when the response's result field is
present and equal, under the code's equality, to neither `None`, `0` nor
`False`; restricted to integer result codes this is: raised iff the code is
non-zero, while `None` (absent) and `0` are success. -/
theorem c5_command_result (r : Option Json) (rest : World) (cid : String)
    (lim mode n : Int) :
    (startCharging st0 (HttpResult.resp 200 r :: rest) cid).out = commandCheck r
    ∧ (stopCharging st0 (HttpResult.resp 200 r :: rest) cid).out = commandCheck r
    ∧ (setCurrentLimit st0 (HttpResult.resp 200 r :: rest) cid lim).out = commandCheck r
    ∧ (setScheduleMode st0 (HttpResult.resp 200 r :: rest) cid mode).out = commandCheck r
    ∧ (commandCheck (some (Json.obj [("result", Json.num n)]))
        = if n = 0 then Except.ok ()
          else Except.error (ClientError.command (some (Json.num n))))
    ∧ commandCheck none = Except.ok ()
    ∧ commandCheck (some (Json.obj [])) = Except.ok ()
    ∧ commandCheck (some (Json.obj [("result", Json.null)])) = Except.ok ()
    ∧ commandCheck (some (Json.obj [("result", Json.bool false)])) = Except.ok ()
    ∧ commandCheck (some (Json.obj [("result", Json.str "x")]))
        = Except.error (ClientError.command (some (Json.str "x"))) := by
  have h : tokenFresh st0 = true := rfl
  refine ⟨?_, ?_, ?_, ?_, ?_, rfl, rfl, rfl, rfl, rfl⟩
  · simp [startCharging, request, requestRetry_200, h]
  · simp [stopCharging, request, requestRetry_200, h]
  · simp [setCurrentLimit, request, requestRetry_200, h]
  · simp [setScheduleMode, request, requestRetry_200, h]
  · rcases eq_or_ne n 0 with h0 | h0 <;>
      simp [commandCheck, commandResult, resultFailure, jget, h0]

/-- A login operation always issues exactly the login request. -/
theorem login_tr (st : ClientState) (w : World) :
    (login st w).tr
      = [{ method := "POST", path := "/account/login", params := none,
           body := some (loginBody st), auth := none }] := rfl

/-- A refresh operation holding a refresh token always issues exactly the
refresh request. -/
theorem refresh_tr (st : ClientState) (w : World) (h : pyTruthy st.refresh = true) :
    (refreshAccessToken st w).tr
      = [{ method := "POST", path := "/account/refresh_token", params := none,
           body := some (refreshBody st), auth := none }] := by
  simp [refreshAccessToken, h, requestNoAuth]

/-- When the token is not fresh, `_ensure_access_token` issues at least one
request (so it is not a no-op). -/
theorem ensure_tr_ne (st : ClientState) (w : World) (h : tokenFresh st = false) :
    (ensureAccessToken st w).tr ≠ [] := by
  simp only [ensureAccessToken, h, Bool.false_eq_true, if_false]
  by_cases hr : pyTruthy st.refresh
  · simp only [hr, if_true]
    cases hout : (refreshAccessToken st w).out with
    | ok _ => simp [hout, refresh_tr st w hr]
    | error e =>
      cases he : e.isApi <;> simp [hout, he, refresh_tr st w hr]
  · simp [hr, login_tr]

/-- C3: `_ensure_access_token` is a no-op (state, script and trace all
untouched, returning successfully) exactly when the token is fresh, i.e.
the stored (margin-adjusted) expiry lies strictly in the future; when
re-authentication is needed it refreshes first whenever a refresh token is
held, falls back to a full login when the refresh raises an API error, and
logs in directly when no refresh token is held.  The final conjunct ties
the guard to the safety margin: for a token stored from a response with
`expires_in = E > 30` at time `t`, the guard holds at clock `n` exactly
when `n < t + (E - 30)`, i.e. re-authentication triggers exactly when the
remaining real lifetime is within the 30-second margin. -/
theorem c3_ensure_valid (st : ClientState) (w : World) (data : List (String × Json))
    (kr : Bool) (E n : Int) :
    ((ensureAccessToken st w = { st := st, w := w, tr := [], out := Except.ok () })
        ↔ tokenFresh st = true)
    ∧ (tokenFresh st = false → pyTruthy st.refresh = false →
        ensureAccessToken st w = login st w)
    ∧ (tokenFresh st = false → pyTruthy st.refresh = true →
        (refreshAccessToken st w).out = Except.ok () →
        ensureAccessToken st w = refreshAccessToken st w)
    ∧ (∀ e, tokenFresh st = false → pyTruthy st.refresh = true →
        (refreshAccessToken st w).out = Except.error e → e.isApi = true →
        ensureAccessToken st w =
          { st := (login (refreshAccessToken st w).st (refreshAccessToken st w).w).st,
            w := (login (refreshAccessToken st w).st (refreshAccessToken st w).w).w,
            tr := (refreshAccessToken st w).tr
              ++ (login (refreshAccessToken st w).st (refreshAccessToken st w).w).tr,
            out := (login (refreshAccessToken st w).st (refreshAccessToken st w).w).out })
    ∧ (jget data "expires_in" = some (Json.num E) → 30 < E →
        pyTruthy (jget data "access_token") = true →
        tokenFresh { (updateTokens st data kr).1 with now := n }
          = decide (n < st.now + (E - 30))) := by
  refine ⟨⟨?_, ?_⟩, ?_, ?_, ?_, ?_⟩
  · intro he
    cases hf : tokenFresh st with
    | true => rfl
    | false =>
      exact absurd (congrArg Outcome.tr he) (ensure_tr_ne st w hf)
  · intro hf
    simp [ensureAccessToken, hf]
  · intro h1 h2
    simp [ensureAccessToken, h1, h2]
  · intro h1 h2 h3
    simp [ensureAccessToken, h1, h2, h3]
  · intro e h1 h2 h3 h4
    simp [ensureAccessToken, h1, h2, h3, h4]
  · intro h1 h2 h3
    have hp : pyInt ((jget data "expires_in").getD (Json.num 3600)) = some E := by
      rw [h1]; rfl
    rw [updateTokens_fst st data kr E hp]
    have hmax : max E 0 = E := max_eq_left (by omega)
    have hn : ¬ E ≤ 30 := by omega
    simp [tokenFresh, h3, computeExpiry, hmax, hn]

/-- Witness for C3: an expired token with no refresh token goes straight to
login, and a token stored from `expires_in = 3600` at time 0 is still fresh
at clock 100. -/
theorem c3_ensure_valid_witness :
    tokenFresh stStale = false
    ∧ ensureAccessToken stStale [] = login stStale []
    ∧ tokenFresh
        { (updateTokens stNoTok
            [("access_token", Json.str "T"), ("expires_in", Json.num 3600)] false).1
          with now := 100 } = true := by
  refine ⟨rfl, ?_, ?_⟩
  · exact (c3_ensure_valid stStale [] [] true 31 0).2.1 rfl rfl
  · have h := (c3_ensure_valid stNoTok []
      [("access_token", Json.str "T"), ("expires_in", Json.num 3600)] false 3600 100).2.2.2.2
      rfl (by decide) rfl
    rw [h]
    decide

/-- C8: on a poll tick, any `NexblueAPIError` raised by the all-devices
fetch is converted into an update-failed condition whose reason wraps the
original error message; a successful fetch publishes the snapshot
unchanged. -/
theorem c8_coordinator (st : ClientState) (w : World) (e : ClientError) (snap : Snapshot) :
    ((getChargers st w).out = Except.error e → e.isApi = true →
      asyncUpdateData st w
        = ((getChargers st w).st, (getChargers st w).w,
           CoordResult.updateFailed ("Error fetching Nexblue data: " ++ e.message)))
    ∧ ((getChargers st w).out = Except.ok snap →
      asyncUpdateData st w
        = ((getChargers st w).st, (getChargers st w).w, CoordResult.success snap)) := by
  constructor
  · intro h1 h2
    simp [asyncUpdateData, h1, h2]
  · intro h1
    simp [asyncUpdateData, h1]

/-- Witness for C8: with no credentials honoured (empty script), the fetch
raises `AuthError` and the coordinator converts it into the update-failed
condition carrying its message. -/
theorem c8_coordinator_witness :
    (getChargers stNoTok []).out
        = Except.error (ClientError.auth "Authentication with Nexblue failed")
    ∧ asyncUpdateData stNoTok []
        = (stNoTok, [],
           CoordResult.updateFailed
             "Error fetching Nexblue data: Authentication with Nexblue failed") := by
  refine ⟨rfl, ?_⟩
  have h := (c8_coordinator stNoTok []
    (ClientError.auth "Authentication with Nexblue failed") []).1 rfl rfl
  simpa using h

/-- C9: a successful refresh updates the state exactly as `_update_tokens`
with `keep_refresh=True` does: the stored refresh token becomes the
response's refresh token when one is supplied and is preserved otherwise;
the access token and the expiry follow the same contract as login (the
expiry computed with `keep_refresh=True` equals the one computed with
`keep_refresh=False`). -/
theorem c9_refresh_frame (st : ClientState) (data : List (String × Json)) (rest : World)
    (hr : pyTruthy st.refresh = true) (hp : expiresParses data = true) :
    (refreshAccessToken st (HttpResult.resp 200 (some (Json.obj data)) :: rest)).st
        = (updateTokens st data true).1
    ∧ (pyTruthy (jget data "refresh_token") = true →
        ((updateTokens st data true).1).refresh = jget data "refresh_token")
    ∧ (pyTruthy (jget data "refresh_token") = false →
        ((updateTokens st data true).1).refresh = st.refresh)
    ∧ ((updateTokens st data true).1).access = jget data "access_token"
    ∧ ((updateTokens st data true).1).expiry = ((updateTokens st data false).1).expiry
    ∧ (pyTruthy (jget data "access_token") = true →
        (refreshAccessToken st (HttpResult.resp 200 (some (Json.obj data)) :: rest)).out
          = Except.ok ()) := by
  obtain ⟨n, hn⟩ := Option.isSome_iff_exists.mp hp
  refine ⟨?_, ?_, ?_, ?_, ?_, ?_⟩
  · simp [refreshAccessToken, hr, requestNoAuth, issue, handleSimple, refreshHandle]
  · intro ht
    rw [updateTokens_fst st data true n hn]
    simp [ht]
  · intro ht
    rw [updateTokens_fst st data true n hn]
    simp [ht]
  · rw [updateTokens_fst st data true n hn]
  · rw [updateTokens_fst st data true n hn, updateTokens_fst st data false n hn]
  · intro ht
    have h2 : (updateTokens st data true).2 = Except.ok () := by
      rw [updateTokens_snd st data true n hn]
      simp [ht]
    simp [refreshAccessToken, hr, requestNoAuth, issue, handleSimple, refreshHandle, h2]

/-- Witness for C9: a refresh response without a refresh token preserves
the stored one and succeeds. -/
theorem c9_refresh_frame_witness :
    (refreshAccessToken st0r
        [HttpResult.resp 200 (some (Json.obj [("access_token", Json.str "T9")]))]).st.refresh
      = some (Json.str "R0")
    ∧ (refreshAccessToken st0r
        [HttpResult.resp 200 (some (Json.obj [("access_token", Json.str "T9")]))]).out
      = Except.ok () := by
  have h := c9_refresh_frame st0r [("access_token", Json.str "T9")] [] rfl rfl
  refine ⟨?_, h.2.2.2.2.2 rfl⟩
  rw [h.1, h.2.2.1 rfl]
  rfl


/-- C10: a login or refresh response that parses as a dict but carries no
access token raises `AuthError "Missing access token in response"` only
after the token state has been overwritten — for either value of
`keep_refresh`, i.e. on the login path and on the refresh path alike: the
stored access token is `None`, the expiry has been recomputed from the
response's `expires_in`, and (for login, `keep_refresh=False`) the stored
refresh token has been replaced by the response's value; the update is not
atomic, but the `None` access token makes the freshness guard fail at
every later clock, so every subsequent authenticated request
re-authenticates.  The last two conjunct groups run `_login` and
`_refresh_access_token` end to end on such a response: each raises the
`AuthError` while leaving the mutated state of its `_update_tokens` call
in place. -/
theorem c10_nonatomic_update (st : ClientState) (data : List (String × Json)) (rest : World)
    (kr : Bool) (hA : jget data "access_token" = none) (hp : expiresParses data = true) :
    (updateTokens st data kr).2
        = Except.error (ClientError.auth "Missing access token in response")
    ∧ ((updateTokens st data kr).1).access = none
    ∧ (∃ E, pyInt ((jget data "expires_in").getD (Json.num 3600)) = some E
        ∧ ((updateTokens st data kr).1).expiry = some (computeExpiry st.now (max E 0)))
    ∧ ((updateTokens st data false).1).refresh = jget data "refresh_token"
    ∧ (∀ m : Int, tokenFresh { (updateTokens st data kr).1 with now := m } = false)
    ∧ ((login st (HttpResult.resp 200 (some (Json.obj data)) :: rest)).st
          = (updateTokens st data false).1
        ∧ (login st (HttpResult.resp 200 (some (Json.obj data)) :: rest)).out
          = Except.error (ClientError.auth "Missing access token in response"))
    ∧ (pyTruthy st.refresh = true →
        (refreshAccessToken st (HttpResult.resp 200 (some (Json.obj data)) :: rest)).st
            = (updateTokens st data true).1
        ∧ (refreshAccessToken st (HttpResult.resp 200 (some (Json.obj data)) :: rest)).out
            = Except.error (ClientError.auth "Missing access token in response")) := by
  obtain ⟨n, hn⟩ := Option.isSome_iff_exists.mp hp
  have h2 : ∀ b : Bool, (updateTokens st data b).2
      = Except.error (ClientError.auth "Missing access token in response") := by
    intro b
    rw [updateTokens_snd st data b n hn]
    simp [hA, pyTruthy]
  refine ⟨h2 kr, ?_, ⟨n, hn, ?_⟩, ?_, ?_, ⟨?_, ?_⟩, ?_⟩
  · rw [updateTokens_fst st data kr n hn]
    simp [hA]
  · rw [updateTokens_fst st data kr n hn]
  · rw [updateTokens_fst st data false n hn]
    simp
  · intro m
    rw [updateTokens_fst st data kr n hn]
    simp [tokenFresh, hA, pyTruthy]
  · simp [login, requestNoAuth, issue, handleSimple, loginHandle]
  · simp [login, requestNoAuth, issue, handleSimple, loginHandle, h2 false]
  · intro hr
    constructor
    · simp [refreshAccessToken, hr, requestNoAuth, issue, handleSimple, refreshHandle]
    · simp [refreshAccessToken, hr, requestNoAuth, issue, handleSimple, refreshHandle,
        h2 true]

/-- Witness for C10, exercising both paths on a response with only
`expires_in`: the login-path update clears the access token, recomputes the
expiry and replaces the refresh token while raising the
missing-access-token `AuthError`, and the end-to-end refresh call on a
client holding a refresh token raises the same `AuthError` with its
mutated state (access cleared, refresh preserved by `keep_refresh=True`)
left in place. -/
theorem c10_nonatomic_update_witness :
    (updateTokens st0r [("expires_in", Json.num 3600)] false).2
        = Except.error (ClientError.auth "Missing access token in response")
    ∧ ((updateTokens st0r [("expires_in", Json.num 3600)] false).1).access = none
    ∧ ((updateTokens st0r [("expires_in", Json.num 3600)] false).1).expiry = some 3570
    ∧ ((updateTokens st0r [("expires_in", Json.num 3600)] false).1).refresh = none
    ∧ (refreshAccessToken st0r
          [HttpResult.resp 200 (some (Json.obj [("expires_in", Json.num 3600)]))]).out
        = Except.error (ClientError.auth "Missing access token in response")
    ∧ (refreshAccessToken st0r
          [HttpResult.resp 200 (some (Json.obj [("expires_in", Json.num 3600)]))]).st.access
        = none
    ∧ (refreshAccessToken st0r
          [HttpResult.resp 200 (some (Json.obj [("expires_in", Json.num 3600)]))]).st.refresh
        = some (Json.str "R0") := by
  have h := c10_nonatomic_update st0r [("expires_in", Json.num 3600)] [] false rfl rfl
  have hT := c10_nonatomic_update st0r [("expires_in", Json.num 3600)] [] true rfl rfl
  have hre := hT.2.2.2.2.2.2 rfl
  refine ⟨h.1, h.2.1, rfl, by rw [h.2.2.2.1]; rfl, hre.2, ?_, ?_⟩
  · rw [hre.1]
    exact hT.2.1
  · rw [hre.1]
    rfl
